import Mathlib

/-!
Shallow embedding of `utils/model_validation/__init__.py` from the
cabPricePredictions repository: the `CrossValidationPipeline` class with its
`calculate_date_folds` static method and its `evaluate_results` method,
together with the fragment of Python / `dateutil` semantics they rely on.

Dates are modelled on the proleptic Gregorian calendar with the year
unbounded above; a Python `datetime.datetime` value is a `DateTime` record
satisfying `DateTime.Valid`.  `dateutil.relativedelta` addition with a
single non-negative plural keyword argument, as performed by
`calculate_date_folds`, is modelled by `addPeriod`: the calendar units
`years` and `months` move the calendar fields and clamp the day to the last
day of the target month, exactly as `relativedelta` does, while the
fixed-duration units (`weeks`, `days`, `hours`, `minutes`, `seconds`,
`microseconds`) are `timedelta` arithmetic, modelled as iterated
single-unit successors (extensionally equal to adding `n` units at once).

Besides those plural relative keywords, `relativedelta` also accepts the
singular absolute keywords `year`, `month`, `day`, `hour`, `minute`,
`second`, `microsecond` (replace-style field setters with or-semantics on
the date fields), the special keywords `weekday`, `leapdays`, `yearday`,
`nlyearday`, and the diff arguments `dt1`/`dt2`; `relativedeltaAdd`
dispatches the period string over this full keyword surface and raises the
`TypeError: unexpected keyword argument` only for strings outside it.
-/

namespace CabPrice

/-- Field record of a (naive, timezone-free) Python `datetime.datetime`. -/
structure DateTime where
  year : Nat
  month : Nat
  day : Nat
  hour : Nat
  minute : Nat
  second : Nat
  microsecond : Nat
  deriving DecidableEq, Repr

/-- Gregorian leap-year test, as in Python's `calendar.isleap`. -/
def isLeapYear (y : Nat) : Bool :=
  y % 4 == 0 && (y % 100 != 0 || y % 400 == 0)

/-- Length of a month, as in Python's `calendar.monthrange(y, m)[1]`. -/
def daysInMonth (y m : Nat) : Nat :=
  if m = 2 then (if isLeapYear y then 29 else 28)
  else if m = 4 ∨ m = 6 ∨ m = 9 ∨ m = 11 then 30
  else 31

/-- Validity of the field record: exactly the invariant every constructed
Python `datetime.datetime` object satisfies (with the year left unbounded
above in this model). -/
def DateTime.Valid (d : DateTime) : Prop :=
  1 ≤ d.year ∧ 1 ≤ d.month ∧ d.month ≤ 12 ∧
  1 ≤ d.day ∧ d.day ≤ daysInMonth d.year d.month ∧
  d.hour < 24 ∧ d.minute < 60 ∧ d.second < 60 ∧ d.microsecond < 1000000

instance (d : DateTime) : Decidable d.Valid := by
  unfold DateTime.Valid; infer_instance

/-- Mixed-radix encoding of the date part of a `DateTime`.  The radices
(13 for months, 32 for days) strictly exceed the bounds of a valid record,
so on valid records `dayPrefix` orders dates exactly like Python's
field-lexicographic `datetime` comparison. -/
def DateTime.dayPrefix (d : DateTime) : Nat :=
  (d.year * 13 + d.month) * 32 + d.day

/-- Mixed-radix encoding down to the hour field. -/
def DateTime.hourPrefix (d : DateTime) : Nat :=
  d.dayPrefix * 24 + d.hour

/-- Mixed-radix encoding down to the minute field. -/
def DateTime.minutePrefix (d : DateTime) : Nat :=
  d.hourPrefix * 60 + d.minute

/-- Mixed-radix encoding down to the second field. -/
def DateTime.secondPrefix (d : DateTime) : Nat :=
  d.minutePrefix * 60 + d.second

/-- Full mixed-radix encoding of a `DateTime`.  On valid records, `key`
order coincides with Python's field-lexicographic `datetime` comparison,
so it is taken as the model's order on datetimes. -/
def DateTime.key (d : DateTime) : Nat :=
  d.secondPrefix * 1000000 + d.microsecond

instance : LT DateTime := ⟨fun a b => a.key < b.key⟩

instance : LE DateTime := ⟨fun a b => a.key ≤ b.key⟩

instance (a b : DateTime) : Decidable (a < b) := by
  change Decidable (a.key < b.key); infer_instance

instance (a b : DateTime) : Decidable (a ≤ b) := by
  change Decidable (a.key ≤ b.key); infer_instance

theorem DateTime.lt_def (a b : DateTime) : a < b ↔ a.key < b.key := Iff.rfl

theorem DateTime.le_def (a b : DateTime) : a ≤ b ↔ a.key ≤ b.key := Iff.rfl

/-- Successor day: `d + timedelta(days=1)` on the date fields. -/
def nextDay (d : DateTime) : DateTime :=
  if d.day < daysInMonth d.year d.month then { d with day := d.day + 1 }
  else if d.month < 12 then { d with day := 1, month := d.month + 1 }
  else { d with day := 1, month := 1, year := d.year + 1 }

/-- Successor hour: `d + timedelta(hours=1)`. -/
def nextHour (d : DateTime) : DateTime :=
  if d.hour < 23 then { d with hour := d.hour + 1 }
  else nextDay { d with hour := 0 }

/-- Successor minute: `d + timedelta(minutes=1)`. -/
def nextMinute (d : DateTime) : DateTime :=
  if d.minute < 59 then { d with minute := d.minute + 1 }
  else nextHour { d with minute := 0 }

/-- Successor second: `d + timedelta(seconds=1)`. -/
def nextSecond (d : DateTime) : DateTime :=
  if d.second < 59 then { d with second := d.second + 1 }
  else nextMinute { d with second := 0 }

/-- Successor microsecond: `d + timedelta(microseconds=1)`. -/
def nextMicrosecond (d : DateTime) : DateTime :=
  if d.microsecond < 999999 then { d with microsecond := d.microsecond + 1 }
  else nextSecond { d with microsecond := 0 }

/-- Linear month index `12 * year + (month - 1)`, the quantity
`dateutil.relativedelta` effectively shifts when adding months. -/
def DateTime.monthIndex (d : DateTime) : Nat :=
  d.year * 12 + (d.month - 1)

/-- Addition of `n` months as `dateutil.relativedelta(months=n)` performs
it: shift the linear month index and clamp the day to the last day of the
resulting month (`min(calendar.monthrange(y, m)[1], dt.day)`). -/
def addMonths (n : Nat) (d : DateTime) : DateTime :=
  let t := d.year * 12 + (d.month - 1) + n
  let y := t / 12
  let m := t % 12 + 1
  { d with year := y, month := m, day := min d.day (daysInMonth y m) }

/-- Addition of `n` years as `dateutil.relativedelta(years=n)` performs it:
shift the year and clamp the day (only Feb 29 can actually clamp). -/
def addYears (n : Nat) (d : DateTime) : DateTime :=
  { d with year := d.year + n,
           day := min d.day (daysInMonth (d.year + n) d.month) }

/-- Relative (plural) keyword arguments accepted by
`dateutil.relativedelta`, i.e. the valid period units of the fold
calculator. -/
inductive PeriodUnit where
  | years | months | weeks | days | hours | minutes | seconds | microseconds
  deriving DecidableEq, Repr

/-- Units whose step is a fixed physical duration: `relativedelta` funnels
these through `datetime.timedelta`, so no day clamping is involved. -/
def PeriodUnit.isAbsolute : PeriodUnit → Bool
  | .years | .months => false
  | _ => true

/-- Dispatch of a period-unit string to the `relativedelta` keyword it
names, `none` when `relativedelta` accepts no such relative keyword. -/
def parsePeriodUnit : String → Option PeriodUnit
  | "years" => some .years
  | "months" => some .months
  | "weeks" => some .weeks
  | "days" => some .days
  | "hours" => some .hours
  | "minutes" => some .minutes
  | "seconds" => some .seconds
  | "microseconds" => some .microseconds
  | _ => none

/-- Effect of `d + relativedelta(**{unit: n})` for a non-negative count
`n`, per unit. -/
def addPeriod : PeriodUnit → Nat → DateTime → DateTime
  | .years, n, d => addYears n d
  | .months, n, d => addMonths n d
  | .weeks, n, d => nextDay^[7 * n] d
  | .days, n, d => nextDay^[n] d
  | .hours, n, d => nextHour^[n] d
  | .minutes, n, d => nextMinute^[n] d
  | .seconds, n, d => nextSecond^[n] d
  | .microseconds, n, d => nextMicrosecond^[n] d

instance {ε α : Type} [DecidableEq ε] [DecidableEq α] :
    DecidableEq (Except ε α) := fun x y =>
  match x, y with
  | .ok a, .ok b =>
      match decEq a b with
      | isTrue h => isTrue (h ▸ rfl)
      | isFalse h => isFalse fun hh => h (Except.ok.inj hh)
  | .error a, .error b =>
      match decEq a b with
      | isTrue h => isTrue (h ▸ rfl)
      | isFalse h => isFalse fun hh => h (Except.error.inj hh)
  | .ok _, .error _ => isFalse fun hh => Except.noConfusion hh
  | .error _, .ok _ => isFalse fun hh => Except.noConfusion hh

/-- Runtime value passed as `start_date`.  `pyDatetime` is a value whose
runtime type is exactly `datetime.datetime`; `pandasTimestamp` stands for
an instance of a proper subclass of `datetime.datetime` (such as
`pandas.Timestamp`) carrying the same calendar fields; `pyString` is a raw
string. -/
inductive StartValue where
  | pyDatetime (d : DateTime)
  | pandasTimestamp (d : DateTime)
  | pyString (s : String)
  deriving DecidableEq, Repr

/-- Exact-type test `type(v) == datetime.datetime`: true only for direct
`datetime.datetime` instances, false for subclasses and non-datetimes. -/
def typeIsExactlyDatetime : StartValue → Bool
  | .pyDatetime _ => true
  | _ => false

/-- Python exceptions the embedded code can raise. -/
inductive PyError where
  | assertionError
  | typeError (msg : String)
  | valueError (msg : String)
  | indexError (msg : String)
  deriving DecidableEq, Repr

/-- The `PipelineDateParams` named tuple.  `folds` is a Python `int`, so it
is modelled as an integer that may be zero or negative. -/
structure PipelineDateParams where
  start_date : StartValue
  period : String
  folds : Int
  deriving DecidableEq, Repr

/-- One fold's dictionary literal
`{"train_end": train_end, "test_end": test_end}`: it has exactly those two
keys. -/
structure Fold where
  train_end : DateTime
  test_end : DateTime
  deriving DecidableEq, Repr

/-- Key lookup in a fold dictionary; `none` models a `KeyError`. -/
def foldLookup (f : Fold) : String → Option DateTime
  | "train_end" => some f.train_end
  | "test_end" => some f.test_end
  | _ => none

/-- Dictionary key `f"fold_{i}"` used by `calculate_date_folds`. -/
def foldKey (i : Nat) : String := "fold_" ++ toString i

/-- Absolute (singular) keyword arguments of `relativedelta`: replace-style
setters of one `datetime` field. -/
inductive AbsoluteField where
  | year | month | day | hour | minute | second | microsecond
  deriving DecidableEq, Repr

/-- Full keyword surface of `dateutil.relativedelta.relativedelta`
reachable through `relativedelta(**{period: n})`: the plural relative
units, the singular absolute field setters, the special keywords
`weekday`, `leapdays`, `yearday`, `nlyearday`, and the diff arguments
`dt1`/`dt2` (inert when only one is passed, since the diff mode needs
both).  Every other keyword string makes the `relativedelta(...)` call
raise `TypeError: unexpected keyword argument`. -/
inductive RdKeyword where
  | relative (u : PeriodUnit)
  | absolute (f : AbsoluteField)
  | leapdays
  | weekday
  | yearday
  | nlyearday
  | dt1
  | dt2
  deriving DecidableEq, Repr

/-- Dispatch of a period string over `relativedelta`'s keyword surface. -/
def parseRdKeyword (s : String) : Option RdKeyword :=
  match parsePeriodUnit s with
  | some u => some (.relative u)
  | none =>
      match s with
      | "year" => some (.absolute .year)
      | "month" => some (.absolute .month)
      | "day" => some (.absolute .day)
      | "hour" => some (.absolute .hour)
      | "minute" => some (.absolute .minute)
      | "second" => some (.absolute .second)
      | "microsecond" => some (.absolute .microsecond)
      | "weekday" => some .weekday
      | "leapdays" => some .leapdays
      | "yearday" => some .yearday
      | "nlyearday" => some .nlyearday
      | "dt1" => some .dt1
      | "dt2" => some .dt2
      | _ => none

/-- Day clamp `day = min(calendar.monthrange(year, month)[1], day)` that
`relativedelta.__add__` applies on every addition (a no-op on valid
datetimes when year and month are unchanged). -/
def clampDay (d : DateTime) : DateTime :=
  { d with day := min (daysInMonth d.year d.month) d.day }

/-- Effect of `d + relativedelta(**{field: n})` for an absolute field
setter, per `relativedelta.__add__`: `year`, `month` and `day` use
or-semantics (a zero value is falsy and leaves the field alone), the day is
clamped to the target month's length, and the time-of-day setters apply
unconditionally with the `datetime.replace` range checks (the year range
check is dropped, as years are unbounded in this model). -/
def applyAbsoluteField :
    AbsoluteField → Nat → DateTime → Except PyError DateTime
  | .year, n, d =>
      let y := if n = 0 then d.year else n
      .ok { d with year := y, day := min (daysInMonth y d.month) d.day }
  | .month, n, d =>
      let m := if n = 0 then d.month else n
      if 12 < m then .error (.valueError "bad month number; must be 1-12")
      else .ok { d with month := m, day := min (daysInMonth d.year m) d.day }
  | .day, n, d =>
      let dd := if n = 0 then d.day else n
      .ok { d with day := min (daysInMonth d.year d.month) dd }
  | .hour, n, d =>
      if 23 < n then .error (.valueError "hour must be in 0..23")
      else .ok { clampDay d with hour := n }
  | .minute, n, d =>
      if 59 < n then .error (.valueError "minute must be in 0..59")
      else .ok { clampDay d with minute := n }
  | .second, n, d =>
      if 59 < n then .error (.valueError "second must be in 0..59")
      else .ok { clampDay d with second := n }
  | .microsecond, n, d =>
      if 999999 < n then
        .error (.valueError "microsecond must be in 0..999999")
      else .ok { clampDay d with microsecond := n }

/-- Effect of `d + relativedelta(leapdays=n)`: the stored leap-day count is
added as plain days only when the result month is past February in a leap
year (and `leapdays=0` is falsy, hence inert). -/
def applyLeapdays (n : Nat) (d : DateTime) : DateTime :=
  if n ≠ 0 ∧ 2 < d.month ∧ isLeapYear d.year then nextDay^[n] (clampDay d)
  else clampDay d

/-- Days from 0001-01-01 to the first day of year `y` in the proleptic
Gregorian calendar. -/
def daysBeforeYear (y : Nat) : Nat :=
  (y - 1) * 365 + (y - 1) / 4 - (y - 1) / 100 + (y - 1) / 400

/-- Days from the first day of year `y` to the first day of its month
`m`. -/
def daysBeforeMonth (y m : Nat) : Nat :=
  ((List.range (m - 1)).map fun i => daysInMonth y (i + 1)).sum

/-- Day count of a date from 0001-01-01 (Python's `toordinal() - 1`). -/
def toOrdinal (d : DateTime) : Nat :=
  daysBeforeYear d.year + daysBeforeMonth d.year d.month + (d.day - 1)

/-- Python's `datetime.weekday()`: Monday is 0, Sunday is 6 (0001-01-01 is
a Monday). -/
def pyWeekday (d : DateTime) : Nat := toOrdinal d % 7

/-- Effect of `d + relativedelta(weekday=n)`: an integer `n` indexes the
seven-element weekday tuple (`IndexError` beyond it), giving `MO .. SU`
with an implicit first-occurrence count, so the result jumps forward
`(7 - d.weekday() + n) % 7` days to the next (or same) such weekday. -/
def applyWeekdayJump (n : Nat) (d : DateTime) : Except PyError DateTime :=
  if 6 < n then .error (.indexError "tuple index out of range")
  else .ok (nextDay^[(7 - pyWeekday (clampDay d) + n) % 7] (clampDay d))

/-- Month and day-of-month that `relativedelta.__init__` derives from a
year-day `n` via its cumulative non-leap table `ydayidx` (note the table
ends at 366, so `n = 366` yields day 32, later clamped). -/
def yeardayMonthDay (n : Nat) : Nat × Nat :=
  if n ≤ 31 then (1, n)
  else if n ≤ 59 then (2, n - 31)
  else if n ≤ 90 then (3, n - 59)
  else if n ≤ 120 then (4, n - 90)
  else if n ≤ 151 then (5, n - 120)
  else if n ≤ 181 then (6, n - 151)
  else if n ≤ 212 then (7, n - 181)
  else if n ≤ 243 then (8, n - 212)
  else if n ≤ 273 then (9, n - 243)
  else if n ≤ 304 then (10, n - 273)
  else if n ≤ 334 then (11, n - 304)
  else (12, n - 334)

/-- Predecessor day, needed for the compensating `leapdays = -1` that
`yearday` installs. -/
def prevDay (d : DateTime) : DateTime :=
  if 1 < d.day then { d with day := d.day - 1 }
  else if 1 < d.month then
    { d with month := d.month - 1, day := daysInMonth d.year (d.month - 1) }
  else { d with year := d.year - 1, month := 12, day := 31 }

/-- Effect of `d + relativedelta(yearday=n)` (calendar style, first
argument `true`) and `d + relativedelta(nlyearday=n)` (`false`): zero is
falsy and inert, values beyond 366 raise `ValueError`, and otherwise month
and day are set absolutely from the non-leap table — with `yearday`
additionally installing `leapdays = -1` for `n > 59`, which steps one day
back when the result lands past February of a leap year. -/
def applyYearday (calendarStyle : Bool) (n : Nat) (d : DateTime) :
    Except PyError DateTime :=
  if n = 0 then .ok (clampDay d)
  else if 366 < n then .error (.valueError "invalid year day")
  else
    let md := yeardayMonthDay n
    let res : DateTime :=
      { d with month := md.1, day := min (daysInMonth d.year md.1) md.2 }
    if calendarStyle ∧ 59 < n ∧ 2 < md.1 ∧ isLeapYear d.year then
      .ok (prevDay res)
    else .ok res

/-- One evaluation of `d + relativedelta(**{period: n})` over the full
keyword surface: plural relative units advance the date by `n` periods,
recognised singular/special keywords apply their replace-style semantics,
and only a string outside the keyword surface makes the
`relativedelta(...)` call raise
`TypeError: unexpected keyword argument`. -/
def relativedeltaAdd (period : String) (n : Nat) (d : DateTime) :
    Except PyError DateTime :=
  match parseRdKeyword period with
  | some (.relative u) => .ok (addPeriod u n d)
  | some (.absolute f) => applyAbsoluteField f n d
  | some .leapdays => .ok (applyLeapdays n d)
  | some .weekday => applyWeekdayJump n d
  | some .yearday => applyYearday true n d
  | some .nlyearday => applyYearday false n d
  | some .dt1 => .ok (clampDay d)
  | some .dt2 => .ok (clampDay d)
  | none =>
      .error (.typeError ("unexpected keyword argument " ++ period))

/-- Body of one iteration of the fold loop: compute `train_end` and
`test_end` for `fold_number`. -/
def computeFold (start : DateTime) (period : String) (fold_number : Nat) :
    Except PyError Fold := do
  let train_end ← relativedeltaAdd period fold_number start
  let test_end ← relativedeltaAdd period 1 train_end
  return { train_end := train_end, test_end := test_end }

/-- Result of the loop `for fold_number in range(0, n)` of
`calculate_date_folds`, as the insertion-ordered association list of the
`date_folds` dictionary after `n` iterations. -/
def foldsUpTo (start : DateTime) (period : String) :
    Nat → Except PyError (List (String × Fold))
  | 0 => .ok []
  | n + 1 => do
      let prev ← foldsUpTo start period n
      let f ← computeFold start period n
      return prev ++ [(foldKey (n + 1), f)]

/-- The `CrossValidationPipeline.calculate_date_folds` static method:
`assert type(date_params.start_date) == datetime.datetime`, then build the
`date_folds` dictionary over `range(0, date_params.folds)` (empty when
`folds ≤ 0`, since `Int.toNat` clamps at zero exactly as `range` does). -/
def calculate_date_folds (date_params : PipelineDateParams) :
    Except PyError (List (String × Fold)) :=
  match date_params.start_date with
  | .pyDatetime d => foldsUpTo d date_params.period date_params.folds.toNat
  | _ => .error .assertionError

/-- Closed form of a successful run of the fold loop: fold `i + 1` holds
`start + i` periods and `start + (i + 1)` periods. -/
def foldsPure (start : DateTime) (u : PeriodUnit) (n : Nat) :
    List (String × Fold) :=
  (List.range n).map fun i =>
    (foldKey (i + 1),
     { train_end := addPeriod u i start,
       test_end := addPeriod u 1 (addPeriod u i start) })

/-- Model of `pd.concat(self.results)`: concatenating an empty collection
of frames raises `ValueError`; the per-fold prediction frames themselves
are opaque here. -/
def pdConcat {α : Type} (results : List (String × α)) :
    Except PyError (List (String × α)) :=
  if results.isEmpty then .error (.valueError "No objects to concatenate")
  else .ok results

/-- Model of subscripting a `dict_values` view, as in
`self.date_parameters.values()[0]`: a `dict_values` object is not
subscriptable, so Python raises `TypeError` whatever the index. -/
def dictValuesSubscript {α : Type} (_values : List α) (_i : Nat) :
    Except PyError α :=
  .error (.typeError "dict_values object is not subscriptable")

/-- Key lookup in a fold dictionary that raises `KeyError` on a missing
key. -/
def foldGetItem (f : Fold) (k : String) : Except PyError DateTime :=
  match foldLookup f k with
  | some v => .ok v
  | none => .error (.valueError ("KeyError " ++ k))

/-- The `CrossValidationPipeline.evaluate_results` method.  The data frame
and the per-fold prediction values are opaque: the method fails before
their contents matter, so the final row assignment is modelled as
returning the copied frame. -/
def evaluate_results {α β : Type} (date_parameters : List (String × Fold))
    (results : List (String × α)) (data_frame : β) : Except PyError β := do
  let frame := data_frame
  let _full_predictions ← pdConcat results
  let firstFold ← dictValuesSubscript (date_parameters.map Prod.snd) 0
  let _test_start ← foldGetItem firstFold "test_start"
  return frame

/-! Bounds on month lengths. -/

lemma daysInMonth_pos (y m : Nat) : 1 ≤ daysInMonth y m := by
  unfold daysInMonth
  split
  · split <;> omega
  · split <;> omega

lemma daysInMonth_le (y m : Nat) : daysInMonth y m ≤ 31 := by
  unfold daysInMonth
  split
  · split <;> omega
  · split <;> omega

/-! Preservation of time-of-day fields by the day successor, and of finer
fields by each coarser successor. -/

lemma nextDay_hour (d : DateTime) : (nextDay d).hour = d.hour := by
  unfold nextDay
  split
  · rfl
  · split <;> rfl

lemma nextDay_minute (d : DateTime) : (nextDay d).minute = d.minute := by
  unfold nextDay
  split
  · rfl
  · split <;> rfl

lemma nextDay_second (d : DateTime) : (nextDay d).second = d.second := by
  unfold nextDay
  split
  · rfl
  · split <;> rfl

lemma nextDay_microsecond (d : DateTime) :
    (nextDay d).microsecond = d.microsecond := by
  unfold nextDay
  split
  · rfl
  · split <;> rfl

lemma nextHour_minute (d : DateTime) : (nextHour d).minute = d.minute := by
  unfold nextHour
  split
  · rfl
  · rw [nextDay_minute]

lemma nextHour_second (d : DateTime) : (nextHour d).second = d.second := by
  unfold nextHour
  split
  · rfl
  · rw [nextDay_second]

lemma nextHour_microsecond (d : DateTime) :
    (nextHour d).microsecond = d.microsecond := by
  unfold nextHour
  split
  · rfl
  · rw [nextDay_microsecond]

lemma nextMinute_second (d : DateTime) : (nextMinute d).second = d.second := by
  unfold nextMinute
  split
  · rfl
  · rw [nextHour_second]

lemma nextMinute_microsecond (d : DateTime) :
    (nextMinute d).microsecond = d.microsecond := by
  unfold nextMinute
  split
  · rfl
  · rw [nextHour_microsecond]

lemma nextSecond_microsecond (d : DateTime) :
    (nextSecond d).microsecond = d.microsecond := by
  unfold nextSecond
  split
  · rfl
  · rw [nextMinute_microsecond]

/-! Validity preservation and strict growth of the mixed-radix prefixes
under each successor. -/

lemma nextDay_valid {d : DateTime} (h : d.Valid) : (nextDay d).Valid := by
  obtain ⟨h1, h2, h3, h4, h5, h6, h7, h8, h9⟩ := h
  have hp1 := daysInMonth_pos d.year (d.month + 1)
  have hp2 := daysInMonth_pos (d.year + 1) 1
  unfold nextDay DateTime.Valid
  split
  · dsimp only
    omega
  · split <;> (dsimp only; omega)

lemma dayPrefix_lt_nextDay {d : DateTime} (h : d.Valid) :
    d.dayPrefix < (nextDay d).dayPrefix := by
  obtain ⟨h1, h2, h3, h4, h5, h6, h7, h8, h9⟩ := h
  have hle := daysInMonth_le d.year d.month
  unfold nextDay DateTime.dayPrefix
  split
  · dsimp only
    omega
  · split
    · dsimp only
      omega
    · dsimp only
      omega

lemma valid_hour_zero {d : DateTime} (h : d.Valid) :
    DateTime.Valid { d with hour := 0 } := by
  obtain ⟨h1, h2, h3, h4, h5, h6, h7, h8, h9⟩ := h
  unfold DateTime.Valid
  dsimp only
  omega

lemma valid_minute_zero {d : DateTime} (h : d.Valid) :
    DateTime.Valid { d with minute := 0 } := by
  obtain ⟨h1, h2, h3, h4, h5, h6, h7, h8, h9⟩ := h
  unfold DateTime.Valid
  dsimp only
  omega

lemma valid_second_zero {d : DateTime} (h : d.Valid) :
    DateTime.Valid { d with second := 0 } := by
  obtain ⟨h1, h2, h3, h4, h5, h6, h7, h8, h9⟩ := h
  unfold DateTime.Valid
  dsimp only
  omega

lemma valid_microsecond_zero {d : DateTime} (h : d.Valid) :
    DateTime.Valid { d with microsecond := 0 } := by
  obtain ⟨h1, h2, h3, h4, h5, h6, h7, h8, h9⟩ := h
  unfold DateTime.Valid
  dsimp only
  omega

lemma nextHour_valid {d : DateTime} (h : d.Valid) : (nextHour d).Valid := by
  have hz := valid_hour_zero h
  obtain ⟨h1, h2, h3, h4, h5, h6, h7, h8, h9⟩ := h
  unfold nextHour
  split
  · unfold DateTime.Valid
    dsimp only
    omega
  · exact nextDay_valid hz

lemma hourPrefix_lt_nextHour {d : DateTime} (h : d.Valid) :
    d.hourPrefix < (nextHour d).hourPrefix := by
  have hv := h
  obtain ⟨h1, h2, h3, h4, h5, h6, h7, h8, h9⟩ := hv
  unfold nextHour
  split
  · unfold DateTime.hourPrefix DateTime.dayPrefix
    dsimp only
    omega
  · have hz : DateTime.Valid { d with hour := 0 } :=
      valid_hour_zero ⟨h1, h2, h3, h4, h5, h6, h7, h8, h9⟩
    have hstep := dayPrefix_lt_nextDay hz
    have hhr := nextDay_hour { d with hour := 0 }
    unfold DateTime.hourPrefix
    unfold DateTime.dayPrefix at hstep ⊢
    dsimp only at hstep hhr ⊢
    omega

lemma nextMinute_valid {d : DateTime} (h : d.Valid) : (nextMinute d).Valid := by
  have hz := valid_minute_zero h
  obtain ⟨h1, h2, h3, h4, h5, h6, h7, h8, h9⟩ := h
  unfold nextMinute
  split
  · unfold DateTime.Valid
    dsimp only
    omega
  · exact nextHour_valid hz

lemma minutePrefix_lt_nextMinute {d : DateTime} (h : d.Valid) :
    d.minutePrefix < (nextMinute d).minutePrefix := by
  have hv := h
  obtain ⟨h1, h2, h3, h4, h5, h6, h7, h8, h9⟩ := hv
  unfold nextMinute
  split
  · unfold DateTime.minutePrefix DateTime.hourPrefix DateTime.dayPrefix
    dsimp only
    omega
  · have hz : DateTime.Valid { d with minute := 0 } :=
      valid_minute_zero ⟨h1, h2, h3, h4, h5, h6, h7, h8, h9⟩
    have hstep := hourPrefix_lt_nextHour hz
    have hmin := nextHour_minute { d with minute := 0 }
    unfold DateTime.minutePrefix
    unfold DateTime.hourPrefix DateTime.dayPrefix at hstep ⊢
    dsimp only at hstep hmin ⊢
    omega

lemma nextSecond_valid {d : DateTime} (h : d.Valid) : (nextSecond d).Valid := by
  have hz := valid_second_zero h
  obtain ⟨h1, h2, h3, h4, h5, h6, h7, h8, h9⟩ := h
  unfold nextSecond
  split
  · unfold DateTime.Valid
    dsimp only
    omega
  · exact nextMinute_valid hz

lemma secondPrefix_lt_nextSecond {d : DateTime} (h : d.Valid) :
    d.secondPrefix < (nextSecond d).secondPrefix := by
  have hv := h
  obtain ⟨h1, h2, h3, h4, h5, h6, h7, h8, h9⟩ := hv
  unfold nextSecond
  split
  · unfold DateTime.secondPrefix DateTime.minutePrefix DateTime.hourPrefix
      DateTime.dayPrefix
    dsimp only
    omega
  · have hz : DateTime.Valid { d with second := 0 } :=
      valid_second_zero ⟨h1, h2, h3, h4, h5, h6, h7, h8, h9⟩
    have hstep := minutePrefix_lt_nextMinute hz
    have hsec := nextMinute_second { d with second := 0 }
    unfold DateTime.secondPrefix
    unfold DateTime.minutePrefix DateTime.hourPrefix DateTime.dayPrefix
      at hstep ⊢
    dsimp only at hstep hsec ⊢
    omega

lemma nextMicrosecond_valid {d : DateTime} (h : d.Valid) :
    (nextMicrosecond d).Valid := by
  have hz := valid_microsecond_zero h
  obtain ⟨h1, h2, h3, h4, h5, h6, h7, h8, h9⟩ := h
  unfold nextMicrosecond
  split
  · unfold DateTime.Valid
    dsimp only
    omega
  · exact nextSecond_valid hz

lemma key_lt_nextMicrosecond {d : DateTime} (h : d.Valid) :
    d.key < (nextMicrosecond d).key := by
  have hv := h
  obtain ⟨h1, h2, h3, h4, h5, h6, h7, h8, h9⟩ := hv
  unfold nextMicrosecond
  split
  · unfold DateTime.key DateTime.secondPrefix DateTime.minutePrefix
      DateTime.hourPrefix DateTime.dayPrefix
    dsimp only
    omega
  · have hz : DateTime.Valid { d with microsecond := 0 } :=
      valid_microsecond_zero ⟨h1, h2, h3, h4, h5, h6, h7, h8, h9⟩
    have hstep := secondPrefix_lt_nextSecond hz
    have hmic := nextSecond_microsecond { d with microsecond := 0 }
    unfold DateTime.key
    unfold DateTime.secondPrefix DateTime.minutePrefix DateTime.hourPrefix
      DateTime.dayPrefix at hstep ⊢
    dsimp only at hstep hmic ⊢
    omega

/-! Lifting prefix growth to growth of the full key. -/

lemma key_lt_of_dayPrefix_lt {a b : DateTime} (ha : a.Valid)
    (h : a.dayPrefix < b.dayPrefix) : a.key < b.key := by
  obtain ⟨h1, h2, h3, h4, h5, h6, h7, h8, h9⟩ := ha
  unfold DateTime.key DateTime.secondPrefix DateTime.minutePrefix
    DateTime.hourPrefix at *
  omega

lemma key_lt_of_hourPrefix_lt {a b : DateTime} (ha : a.Valid)
    (h : a.hourPrefix < b.hourPrefix) : a.key < b.key := by
  obtain ⟨h1, h2, h3, h4, h5, h6, h7, h8, h9⟩ := ha
  unfold DateTime.key DateTime.secondPrefix DateTime.minutePrefix at *
  omega

lemma key_lt_of_minutePrefix_lt {a b : DateTime} (ha : a.Valid)
    (h : a.minutePrefix < b.minutePrefix) : a.key < b.key := by
  obtain ⟨h1, h2, h3, h4, h5, h6, h7, h8, h9⟩ := ha
  unfold DateTime.key DateTime.secondPrefix at *
  omega

lemma key_lt_of_secondPrefix_lt {a b : DateTime} (ha : a.Valid)
    (h : a.secondPrefix < b.secondPrefix) : a.key < b.key := by
  obtain ⟨h1, h2, h3, h4, h5, h6, h7, h8, h9⟩ := ha
  unfold DateTime.key at *
  omega

lemma key_lt_nextDay {d : DateTime} (h : d.Valid) :
    d.key < (nextDay d).key :=
  key_lt_of_dayPrefix_lt h (dayPrefix_lt_nextDay h)

lemma key_lt_nextHour {d : DateTime} (h : d.Valid) :
    d.key < (nextHour d).key :=
  key_lt_of_hourPrefix_lt h (hourPrefix_lt_nextHour h)

lemma key_lt_nextMinute {d : DateTime} (h : d.Valid) :
    d.key < (nextMinute d).key :=
  key_lt_of_minutePrefix_lt h (minutePrefix_lt_nextMinute h)

lemma key_lt_nextSecond {d : DateTime} (h : d.Valid) :
    d.key < (nextSecond d).key :=
  key_lt_of_secondPrefix_lt h (secondPrefix_lt_nextSecond h)

/-! Iterated successors: validity is preserved and the key strictly grows
with at least one step. -/

lemma iterate_valid {f : DateTime → DateTime}
    (hf : ∀ e : DateTime, e.Valid → (f e).Valid) {d : DateTime}
    (hd : d.Valid) : ∀ n : Nat, (f^[n] d).Valid := by
  intro n
  induction n with
  | zero => simpa using hd
  | succ n ih =>
      rw [Function.iterate_succ_apply']
      exact hf _ ih

lemma iterate_key_lt {f : DateTime → DateTime}
    (hf : ∀ e : DateTime, e.Valid → (f e).Valid)
    (hk : ∀ e : DateTime, e.Valid → e.key < (f e).key) {d : DateTime}
    (hd : d.Valid) : ∀ n : Nat, 1 ≤ n → d.key < (f^[n] d).key := by
  intro n
  induction n with
  | zero => omega
  | succ n ih =>
      intro _
      rw [Function.iterate_succ_apply']
      rcases Nat.eq_zero_or_pos n with hn | hn
      · subst hn
        simpa using hk d hd
      · exact lt_trans (ih hn) (hk _ (iterate_valid hf hd n))

/-! Uniform view of the fixed-duration units as iterated successors. -/

/-- Successor function realising one fixed-duration unit (junk identity on
the calendar units, which never use it). -/
def stepFn : PeriodUnit → DateTime → DateTime
  | .weeks => nextDay
  | .days => nextDay
  | .hours => nextHour
  | .minutes => nextMinute
  | .seconds => nextSecond
  | .microseconds => nextMicrosecond
  | _ => id

/-- Number of successor steps one unit is worth. -/
def stepCount : PeriodUnit → Nat
  | .weeks => 7
  | _ => 1

lemma stepCount_pos (u : PeriodUnit) : 1 ≤ stepCount u := by
  cases u <;> simp [stepCount]

lemma stepFn_valid {u : PeriodUnit} (hu : u.isAbsolute = true)
    {e : DateTime} (he : e.Valid) : (stepFn u e).Valid := by
  cases u <;> simp_all [PeriodUnit.isAbsolute, stepFn,
    nextDay_valid, nextHour_valid, nextMinute_valid, nextSecond_valid,
    nextMicrosecond_valid]

lemma stepFn_key_lt {u : PeriodUnit} (hu : u.isAbsolute = true)
    {e : DateTime} (he : e.Valid) : e.key < (stepFn u e).key := by
  cases u <;> simp_all [PeriodUnit.isAbsolute, stepFn,
    key_lt_nextDay, key_lt_nextHour, key_lt_nextMinute, key_lt_nextSecond,
    key_lt_nextMicrosecond]

lemma addPeriod_absolute {u : PeriodUnit} (hu : u.isAbsolute = true)
    (n : Nat) (d : DateTime) :
    addPeriod u n d = (stepFn u)^[stepCount u * n] d := by
  cases u <;> simp [PeriodUnit.isAbsolute, addPeriod, stepFn, stepCount] at hu ⊢

/-! Calendar units: month-index arithmetic and day clamping. -/

/-- Number of months one calendar unit is worth (zero on fixed-duration
units, which never use it). -/
def monthsStep : PeriodUnit → Nat
  | .years => 12
  | .months => 1
  | _ => 0

lemma monthsStep_pos {u : PeriodUnit} (hu : u.isAbsolute = false) :
    1 ≤ monthsStep u := by
  cases u <;> simp_all [PeriodUnit.isAbsolute, monthsStep]

lemma addMonths_monthIndex (n : Nat) (d : DateTime) :
    (addMonths n d).monthIndex = d.monthIndex + n := by
  unfold addMonths DateTime.monthIndex
  dsimp only
  omega

lemma addYears_monthIndex (n : Nat) (d : DateTime) :
    (addYears n d).monthIndex = d.monthIndex + 12 * n := by
  unfold addYears DateTime.monthIndex
  dsimp only
  omega

lemma addMonths_valid (n : Nat) {d : DateTime} (h : d.Valid) :
    (addMonths n d).Valid := by
  obtain ⟨h1, h2, h3, h4, h5, h6, h7, h8, h9⟩ := h
  have hp := daysInMonth_pos ((d.year * 12 + (d.month - 1) + n) / 12)
    ((d.year * 12 + (d.month - 1) + n) % 12 + 1)
  unfold addMonths DateTime.Valid
  dsimp only
  omega

lemma addYears_valid (n : Nat) {d : DateTime} (h : d.Valid) :
    (addYears n d).Valid := by
  obtain ⟨h1, h2, h3, h4, h5, h6, h7, h8, h9⟩ := h
  have hp := daysInMonth_pos (d.year + n) d.month
  unfold addYears DateTime.Valid
  dsimp only
  omega

lemma addPeriod_calendar_monthIndex {u : PeriodUnit}
    (hu : u.isAbsolute = false) (n : Nat) (d : DateTime) :
    (addPeriod u n d).monthIndex = d.monthIndex + monthsStep u * n := by
  cases u <;> simp_all [PeriodUnit.isAbsolute, addPeriod, monthsStep,
    addMonths_monthIndex, addYears_monthIndex]

lemma addPeriod_valid (u : PeriodUnit) (n : Nat) {d : DateTime}
    (h : d.Valid) : (addPeriod u n d).Valid := by
  by_cases hu : u.isAbsolute = true
  · rw [addPeriod_absolute hu]
    exact iterate_valid (fun e he => stepFn_valid hu he) h _
  · cases u <;> simp_all [PeriodUnit.isAbsolute, addPeriod,
      addMonths_valid, addYears_valid]

/-- Strict order on keys from strict order on month indices, for records
whose day and time fields are within the valid bounds. -/
lemma key_lt_of_monthIndex_lt {a b : DateTime} (ha : a.Valid) (hb : b.Valid)
    (h : a.monthIndex < b.monthIndex) : a.key < b.key := by
  apply key_lt_of_dayPrefix_lt ha
  obtain ⟨a1, a2, a3, a4, a5, a6, a7, a8, a9⟩ := ha
  obtain ⟨b1, b2, b3, b4, b5, b6, b7, b8, b9⟩ := hb
  have hda := daysInMonth_le a.year a.month
  have hdb := daysInMonth_le b.year b.month
  unfold DateTime.monthIndex at h
  unfold DateTime.dayPrefix
  omega

/-! Key growth of `addPeriod` across fold numbers. -/

lemma key_lt_addPeriod_one (u : PeriodUnit) {e : DateTime} (he : e.Valid) :
    e.key < (addPeriod u 1 e).key := by
  by_cases hu : u.isAbsolute = true
  · rw [addPeriod_absolute hu]
    exact iterate_key_lt (fun x hx => stepFn_valid hu hx)
      (fun x hx => stepFn_key_lt hu hx) he _ (by have := stepCount_pos u; omega)
  · have hu' : u.isAbsolute = false := by
      cases hb : u.isAbsolute
      · rfl
      · exact absurd hb hu
    apply key_lt_of_monthIndex_lt he (addPeriod_valid u 1 he)
    rw [addPeriod_calendar_monthIndex hu']
    have := monthsStep_pos hu'
    omega

lemma addPeriod_key_lt_succ (u : PeriodUnit) (n : Nat) {d : DateTime}
    (h : d.Valid) : (addPeriod u n d).key < (addPeriod u (n + 1) d).key := by
  by_cases hu : u.isAbsolute = true
  · rw [addPeriod_absolute hu n, addPeriod_absolute hu (n + 1)]
    have hc : stepCount u * (n + 1) = stepCount u + stepCount u * n := by ring
    rw [hc, Function.iterate_add_apply]
    exact iterate_key_lt (fun x hx => stepFn_valid hu hx)
      (fun x hx => stepFn_key_lt hu hx)
      (iterate_valid (fun x hx => stepFn_valid hu hx) h _) _
      (stepCount_pos u)
  · have hu' : u.isAbsolute = false := by
      cases hb : u.isAbsolute
      · rfl
      · exact absurd hb hu
    apply key_lt_of_monthIndex_lt (addPeriod_valid u n h)
      (addPeriod_valid u (n + 1) h)
    rw [addPeriod_calendar_monthIndex hu', addPeriod_calendar_monthIndex hu']
    have := monthsStep_pos hu'
    have : monthsStep u * (n + 1) = monthsStep u * n + monthsStep u := by ring
    omega

/-- On fixed-duration units, adding one more period to the `n`-period point
is the same as adding `n + 1` periods at once: `timedelta` arithmetic
composes, there is no day clamping. -/
lemma addPeriod_one_comp {u : PeriodUnit} (hu : u.isAbsolute = true)
    (n : Nat) (d : DateTime) :
    addPeriod u 1 (addPeriod u n d) = addPeriod u (n + 1) d := by
  rw [addPeriod_absolute hu 1, addPeriod_absolute hu n,
    addPeriod_absolute hu (n + 1)]
  have hc : stepCount u * (n + 1) = stepCount u * 1 + stepCount u * n := by
    ring
  rw [hc, Function.iterate_add_apply]

lemma addPeriod_test_key_lt (u : PeriodUnit) (n : Nat) {d : DateTime}
    (h : d.Valid) :
    (addPeriod u 1 (addPeriod u n d)).key <
      (addPeriod u 1 (addPeriod u (n + 1) d)).key := by
  by_cases hu : u.isAbsolute = true
  · rw [addPeriod_one_comp hu, addPeriod_one_comp hu]
    exact addPeriod_key_lt_succ u (n + 1) h
  · have hu' : u.isAbsolute = false := by
      cases hb : u.isAbsolute
      · rfl
      · exact absurd hb hu
    apply key_lt_of_monthIndex_lt
      (addPeriod_valid u 1 (addPeriod_valid u n h))
      (addPeriod_valid u 1 (addPeriod_valid u (n + 1) h))
    rw [addPeriod_calendar_monthIndex hu',
      addPeriod_calendar_monthIndex hu',
      addPeriod_calendar_monthIndex hu',
      addPeriod_calendar_monthIndex hu']
    have := monthsStep_pos hu'
    have : monthsStep u * (n + 1) = monthsStep u * n + monthsStep u := by ring
    omega

/-! Characterisation of a successful run of the fold loop. -/

lemma Except_ok_bind {ε α β : Type} (a : α) (f : α → Except ε β) :
    ((Except.ok a : Except ε α) >>= f) = f a := rfl

lemma Except_error_bind {ε α β : Type} (e : ε) (f : α → Except ε β) :
    ((Except.error e : Except ε α) >>= f) = Except.error e := rfl

lemma relativedeltaAdd_ok {period : String} {u : PeriodUnit}
    (hu : parsePeriodUnit period = some u) (n : Nat) (d : DateTime) :
    relativedeltaAdd period n d = .ok (addPeriod u n d) := by
  unfold relativedeltaAdd parseRdKeyword
  rw [hu]

lemma relativedeltaAdd_error {period : String}
    (hu : parseRdKeyword period = none) (n : Nat) (d : DateTime) :
    relativedeltaAdd period n d =
      .error (.typeError ("unexpected keyword argument " ++ period)) := by
  unfold relativedeltaAdd
  rw [hu]

lemma foldsUpTo_ok {period : String} {u : PeriodUnit}
    (hu : parsePeriodUnit period = some u) (start : DateTime) (n : Nat) :
    foldsUpTo start period n = .ok (foldsPure start u n) := by
  induction n with
  | zero => simp [foldsUpTo, foldsPure]
  | succ n ih =>
      unfold foldsUpTo
      rw [ih]
      simp [computeFold, relativedeltaAdd_ok hu, foldsPure, List.range_succ,
        Except_ok_bind]

lemma foldsUpTo_error {period : String}
    (hu : parseRdKeyword period = none) (start : DateTime) (n : Nat)
    (hn : 1 ≤ n) :
    foldsUpTo start period n =
      .error (.typeError ("unexpected keyword argument " ++ period)) := by
  induction n with
  | zero => omega
  | succ n ih =>
      unfold foldsUpTo
      rcases Nat.eq_zero_or_pos n with h0 | h0
      · subst h0
        simp [foldsUpTo, computeFold, relativedeltaAdd_error hu,
          Except_ok_bind, Except_error_bind]
      · rw [ih h0]
        rfl

lemma calculate_date_folds_ok {p : PipelineDateParams} {d : DateTime}
    {u : PeriodUnit} (hs : p.start_date = .pyDatetime d)
    (hu : parsePeriodUnit p.period = some u) :
    calculate_date_folds p = .ok (foldsPure d u p.folds.toNat) := by
  unfold calculate_date_folds
  rw [hs]
  exact foldsUpTo_ok hu d _

lemma foldsPure_length (start : DateTime) (u : PeriodUnit) (n : Nat) :
    (foldsPure start u n).length = n := by
  simp [foldsPure]

lemma foldsPure_getElem? (start : DateTime) (u : PeriodUnit) {n i : Nat}
    (hi : i < n) :
    (foldsPure start u n)[i]? =
      some (foldKey (i + 1),
        { train_end := addPeriod u i start,
          test_end := addPeriod u 1 (addPeriod u i start) }) := by
  simp [foldsPure, List.getElem?_map, List.getElem?_range, hi]

lemma foldsPure_getElem?_inv {start : DateTime} {u : PeriodUnit}
    {n i : Nat} {e : String × Fold}
    (h : (foldsPure start u n)[i]? = some e) :
    i < n ∧
      e = (foldKey (i + 1),
        { train_end := addPeriod u i start,
          test_end := addPeriod u 1 (addPeriod u i start) }) := by
  have hi : i < n := by
    by_contra hc
    rw [List.getElem?_eq_none (by simpa [foldsPure_length] using hc)] at h
    exact Option.noConfusion h
  rw [foldsPure_getElem? start u hi] at h
  exact ⟨hi, (Option.some.inj h).symm⟩

lemma foldsPure_mem {start : DateTime} {u : PeriodUnit} {n : Nat}
    {e : String × Fold} (he : e ∈ foldsPure start u n) :
    ∃ i, i < n ∧
      e = (foldKey (i + 1),
        { train_end := addPeriod u i start,
          test_end := addPeriod u 1 (addPeriod u i start) }) := by
  simp only [foldsPure, List.mem_map, List.mem_range] at he
  obtain ⟨i, hi, hei⟩ := he
  exact ⟨i, hi, hei.symm⟩

/-! Claim theorems. -/

/-- C1: for every `FoldParams` with a datetime start, a valid period unit
and `folds = N ≥ 1`, and every fold number `k` in `1..N`, the fold with
index `k` returned by `calculate_date_folds` (the `k`-th entry, stored
under key `fold_k`) has `train_end` equal to the start advanced by `k - 1`
period units using the calendar-aware `relativedelta` addition, and
`test_end` equal to `train_end` advanced by exactly one period unit. -/
theorem claim_C1 (p : PipelineDateParams) (d : DateTime) (u : PeriodUnit)
    (N k : Nat) (hs : p.start_date = .pyDatetime d)
    (hu : parsePeriodUnit p.period = some u) (hf : p.folds = (N : Int))
    (hN : 1 ≤ N) (hk : 1 ≤ k) (hkN : k ≤ N) :
    ∃ l, calculate_date_folds p = .ok l ∧
      l[k - 1]? = some (foldKey k,
        { train_end := addPeriod u (k - 1) d,
          test_end := addPeriod u 1 (addPeriod u (k - 1) d) }) := by
  refine ⟨_, calculate_date_folds_ok hs hu, ?_⟩
  rw [hf]
  have ht : ((N : Int)).toNat = N := Int.toNat_natCast N
  rw [ht]
  have hk1 : k - 1 + 1 = k := by omega
  rw [foldsPure_getElem? d u (show k - 1 < N by omega), hk1]

/-- Witness for C1 at the test scenario of the repository
(start 2022-01-01T08:00:00, period `hours`, 10 folds, fold number 2). -/
theorem claim_C1_witness :
    ∃ l,
      calculate_date_folds
        ⟨.pyDatetime ⟨2022, 1, 1, 8, 0, 0, 0⟩, "hours", 10⟩ = .ok l ∧
      l[1]? = some ("fold_2",
        { train_end := ⟨2022, 1, 1, 9, 0, 0, 0⟩,
          test_end := ⟨2022, 1, 1, 10, 0, 0, 0⟩ }) := by
  obtain ⟨l, h1, h2⟩ :=
    claim_C1 ⟨.pyDatetime ⟨2022, 1, 1, 8, 0, 0, 0⟩, "hours", 10⟩
      ⟨2022, 1, 1, 8, 0, 0, 0⟩ .hours 10 2 rfl rfl rfl (by decide) (by decide)
      (by decide)
  refine ⟨l, h1, ?_⟩
  rw [h2]
  decide

/-- C2: for every `FoldParams` with a datetime start, a valid period unit
and `folds = N ≥ 1`, `calculate_date_folds` returns a fold set with exactly
`N` entries, keyed `fold_1 .. fold_N`, inserted in increasing index
order. -/
theorem claim_C2 (p : PipelineDateParams) (d : DateTime) (u : PeriodUnit)
    (N : Nat) (hs : p.start_date = .pyDatetime d)
    (hu : parsePeriodUnit p.period = some u) (hf : p.folds = (N : Int))
    (hN : 1 ≤ N) :
    ∃ l, calculate_date_folds p = .ok l ∧ l.length = N ∧
      l.map Prod.fst = (List.range N).map fun i => foldKey (i + 1) := by
  refine ⟨_, calculate_date_folds_ok hs hu, ?_, ?_⟩
  · rw [hf, Int.toNat_natCast, foldsPure_length]
  · rw [hf, Int.toNat_natCast]
    simp [foldsPure]

/-- Witness for C2 at the test scenario (10 hourly folds). -/
theorem claim_C2_witness :
    ∃ l,
      calculate_date_folds
        ⟨.pyDatetime ⟨2022, 1, 1, 8, 0, 0, 0⟩, "hours", 10⟩ = .ok l ∧
      l.length = 10 ∧
      l.map Prod.fst = (List.range 10).map fun i => foldKey (i + 1) :=
  claim_C2 ⟨.pyDatetime ⟨2022, 1, 1, 8, 0, 0, 0⟩, "hours", 10⟩
    ⟨2022, 1, 1, 8, 0, 0, 0⟩ .hours 10 rfl rfl rfl (by decide)

/-- C3: for every `FoldParams` with a (valid) datetime start, a valid
period unit and `folds ≥ 1`, every returned fold satisfies
`train_end ≤ test_end`, and `test_end` is `train_end` advanced by exactly
one calendar-correct period unit. -/
theorem claim_C3 (p : PipelineDateParams) (d : DateTime) (u : PeriodUnit)
    (hs : p.start_date = .pyDatetime d)
    (hu : parsePeriodUnit p.period = some u) (hv : d.Valid)
    (hf : 1 ≤ p.folds) :
    ∀ l, calculate_date_folds p = .ok l → ∀ e ∈ l,
      e.2.train_end ≤ e.2.test_end ∧
      e.2.test_end = addPeriod u 1 e.2.train_end := by
  intro l hl e he
  rw [calculate_date_folds_ok hs hu] at hl
  obtain rfl := Except.ok.inj hl
  obtain ⟨i, _, rfl⟩ := foldsPure_mem he
  refine ⟨?_, rfl⟩
  rw [DateTime.le_def]
  exact le_of_lt (key_lt_addPeriod_one u (addPeriod_valid u i hv))

/-- Witness for C3: one monthly fold from 2022-01-31, where the
calendar-correct month step lands on 2022-02-28. -/
theorem claim_C3_witness :
    (({ train_end := ⟨2022, 1, 31, 0, 0, 0, 0⟩,
        test_end := ⟨2022, 2, 28, 0, 0, 0, 0⟩ } : Fold)).train_end ≤
      ({ train_end := ⟨2022, 1, 31, 0, 0, 0, 0⟩,
         test_end := ⟨2022, 2, 28, 0, 0, 0, 0⟩ } : Fold).test_end ∧
    ({ train_end := ⟨2022, 1, 31, 0, 0, 0, 0⟩,
       test_end := ⟨2022, 2, 28, 0, 0, 0, 0⟩ } : Fold).test_end =
      addPeriod .months 1 ⟨2022, 1, 31, 0, 0, 0, 0⟩ := by
  have h :=
    claim_C3 ⟨.pyDatetime ⟨2022, 1, 31, 0, 0, 0, 0⟩, "months", 1⟩
      ⟨2022, 1, 31, 0, 0, 0, 0⟩ .months rfl rfl (by decide) (by decide)
      (foldsPure ⟨2022, 1, 31, 0, 0, 0, 0⟩ .months 1) (by decide)
      ("fold_1", { train_end := ⟨2022, 1, 31, 0, 0, 0, 0⟩,
                   test_end := ⟨2022, 2, 28, 0, 0, 0, 0⟩ }) (by decide)
  exact h

/-- C4, counterexample to the claim as stated: with start 2022-01-31,
period `months` and 3 folds, fold 2's `test_end` is 2022-03-28 (the day was
clamped to Feb 28 after one month and stays 28 after the next), while fold
3's `train_end` is 2022-03-31 (computed in one shot from the fixed start),
so consecutive folds do not chain. -/
theorem claim_C4_counterexample :
    ¬ (∀ l i a b,
        calculate_date_folds
          ⟨.pyDatetime ⟨2022, 1, 31, 0, 0, 0, 0⟩, "months", 3⟩ = .ok l →
        l[i]? = some a → l[i + 1]? = some b →
        a.2.test_end = b.2.train_end) := by
  intro h
  have hc :=
    h (foldsPure ⟨2022, 1, 31, 0, 0, 0, 0⟩ .months 3) 1
      ("fold_2", { train_end := ⟨2022, 2, 28, 0, 0, 0, 0⟩,
                   test_end := ⟨2022, 3, 28, 0, 0, 0, 0⟩ })
      ("fold_3", { train_end := ⟨2022, 3, 31, 0, 0, 0, 0⟩,
                   test_end := ⟨2022, 4, 30, 0, 0, 0, 0⟩ })
      (by decide) (by decide) (by decide)
  exact absurd hc (by decide)

/-- C4 as amended: for every `FoldParams` with a (valid) datetime start, a
valid period unit and `folds = N ≥ 2`, the returned folds are strictly
increasing in both `train_end` and `test_end`, and each fold's `train_end`
is computed from the single fixed start (`start + i` period units, not
chained from the previous fold); moreover, when the period unit is a
fixed-duration unit (`weeks`, `days`, `hours`, `minutes`, `seconds`,
`microseconds`), fold `k`'s `test_end` equals fold `k + 1`'s `train_end` —
for the day-clamping calendar units `months`/`years` that equality can
fail. -/
theorem claim_C4_amended (p : PipelineDateParams) (d : DateTime)
    (u : PeriodUnit) (N : Nat) (hs : p.start_date = .pyDatetime d)
    (hu : parsePeriodUnit p.period = some u) (hv : d.Valid)
    (hf : p.folds = (N : Int)) (hN : 2 ≤ N) :
    ∃ l, calculate_date_folds p = .ok l ∧ l.length = N ∧
      (∀ i a b, l[i]? = some a → l[i + 1]? = some b →
        a.2.train_end < b.2.train_end ∧ a.2.test_end < b.2.test_end ∧
        a.2.train_end = addPeriod u i d) ∧
      (u.isAbsolute = true → ∀ i a b, l[i]? = some a → l[i + 1]? = some b →
        a.2.test_end = b.2.train_end) := by
  refine ⟨_, calculate_date_folds_ok hs hu, ?_, ?_, ?_⟩
  · rw [hf, Int.toNat_natCast, foldsPure_length]
  · intro i a b ha hb
    obtain ⟨hi, rfl⟩ := foldsPure_getElem?_inv ha
    obtain ⟨hi1, rfl⟩ := foldsPure_getElem?_inv hb
    refine ⟨?_, ?_, rfl⟩
    · rw [DateTime.lt_def]
      exact addPeriod_key_lt_succ u i hv
    · rw [DateTime.lt_def]
      exact addPeriod_test_key_lt u i hv
  · intro hab i a b ha hb
    obtain ⟨hi, rfl⟩ := foldsPure_getElem?_inv ha
    obtain ⟨hi1, rfl⟩ := foldsPure_getElem?_inv hb
    exact addPeriod_one_comp hab i d

/-- Witness for the amended C4 at the test scenario (10 hourly folds,
where `hours` is a fixed-duration unit). -/
theorem claim_C4_amended_witness :
    ∃ l,
      calculate_date_folds
        ⟨.pyDatetime ⟨2022, 1, 1, 8, 0, 0, 0⟩, "hours", 10⟩ = .ok l ∧
      l.length = 10 ∧
      (∀ i a b, l[i]? = some a → l[i + 1]? = some b →
        a.2.train_end < b.2.train_end ∧ a.2.test_end < b.2.test_end ∧
        a.2.train_end = addPeriod .hours i ⟨2022, 1, 1, 8, 0, 0, 0⟩) ∧
      (PeriodUnit.hours.isAbsolute = true →
        ∀ i a b, l[i]? = some a → l[i + 1]? = some b →
        a.2.test_end = b.2.train_end) :=
  claim_C4_amended ⟨.pyDatetime ⟨2022, 1, 1, 8, 0, 0, 0⟩, "hours", 10⟩
    ⟨2022, 1, 1, 8, 0, 0, 0⟩ .hours 10 rfl rfl (by decide) rfl (by decide)

/-- C5: a `FoldParams` whose start is a raw string makes
`calculate_date_folds` fail on the exact-type assertion, before any fold is
computed and with no string-to-date coercion. -/
theorem claim_C5 (p : PipelineDateParams) (s : String)
    (hs : p.start_date = .pyString s) :
    calculate_date_folds p = .error .assertionError ∧
    typeIsExactlyDatetime p.start_date = false := by
  constructor
  · unfold calculate_date_folds
    rw [hs]
  · rw [hs]
    rfl

/-- Witness for C5 at a raw-string start date. -/
theorem claim_C5_witness :
    calculate_date_folds
      ⟨.pyString "2022-01-01 08:00:00", "hours", 10⟩ =
        .error .assertionError ∧
    typeIsExactlyDatetime (.pyString "2022-01-01 08:00:00") = false :=
  claim_C5 ⟨.pyString "2022-01-01 08:00:00", "hours", 10⟩
    "2022-01-01 08:00:00" rfl

/-- C6: on a pipeline whose `date_parameters` came from
`calculate_date_folds` (so folds hold only `train_end` and `test_end`) and
whose results are non-empty, `evaluate_results` fails at runtime — it
subscripts the `dict_values` view by position (a `TypeError`) while the
`test_start` key it wants to read exists in no fold — and never returns a
merged frame. -/
theorem claim_C6 {α β : Type} (p : PipelineDateParams)
    (date_parameters : List (String × Fold)) (results : List (String × α))
    (data_frame : β)
    (hdp : calculate_date_folds p = .ok date_parameters)
    (hres : results ≠ []) :
    evaluate_results date_parameters results data_frame =
      .error (.typeError "dict_values object is not subscriptable") ∧
    ∀ e ∈ date_parameters, foldLookup e.2 "test_start" = none := by
  constructor
  · unfold evaluate_results pdConcat
    rw [if_neg (by simpa using hres)]
    rfl
  · intro e _
    rfl

/-- Witness for C6 on a one-fold pipeline with one recorded result. -/
theorem claim_C6_witness :
    evaluate_results
      [("fold_1", { train_end := ⟨2022, 1, 1, 8, 0, 0, 0⟩,
                    test_end := ⟨2022, 1, 1, 9, 0, 0, 0⟩ })]
      [("fold_1", (0 : Nat))] (0 : Nat) =
      .error (.typeError "dict_values object is not subscriptable") ∧
    ∀ e ∈ [("fold_1", ({ train_end := ⟨2022, 1, 1, 8, 0, 0, 0⟩,
                         test_end := ⟨2022, 1, 1, 9, 0, 0, 0⟩ } : Fold))],
      foldLookup e.2 "test_start" = none :=
  claim_C6 ⟨.pyDatetime ⟨2022, 1, 1, 8, 0, 0, 0⟩, "hours", 1⟩
    [("fold_1", { train_end := ⟨2022, 1, 1, 8, 0, 0, 0⟩,
                  test_end := ⟨2022, 1, 1, 9, 0, 0, 0⟩ })]
    [("fold_1", (0 : Nat))] (0 : Nat) (by decide) (by decide)

/-- C7, counterexample to the claim as stated: `hour` is not a recognised
calendar unit (not one of the plural relative units), yet
`relativedelta(hour=n)` is an accepted absolute keyword, so with period
`hour`, a datetime start and 2 folds the real `calculate_date_folds`
returns folds computed by `datetime.replace` semantics — setting the hour
field absolutely, here even making fold 2 degenerate — instead of raising
any invalid-argument error. -/
theorem claim_C7_counterexample :
    parsePeriodUnit "hour" = none ∧
    calculate_date_folds ⟨.pyDatetime ⟨2022, 1, 1, 8, 0, 0, 0⟩, "hour", 2⟩ =
      .ok [("fold_1", { train_end := ⟨2022, 1, 1, 0, 0, 0, 0⟩,
                        test_end := ⟨2022, 1, 1, 1, 0, 0, 0⟩ }),
           ("fold_2", { train_end := ⟨2022, 1, 1, 1, 0, 0, 0⟩,
                        test_end := ⟨2022, 1, 1, 1, 0, 0, 0⟩ })] := by
  decide

/-- C7 as amended: with a datetime start, `folds ≥ 1` and a period string
that matches no keyword accepted by `relativedelta` at all — neither a
plural relative unit nor one of the keywords `year`, `month`, `day`,
`hour`, `minute`, `second`, `microsecond`, `weekday`, `leapdays`,
`yearday`, `nlyearday`, `dt1`, `dt2` — `calculate_date_folds` fails with
the invalid-argument `TypeError` raised by the `relativedelta` call; the
whole call errors, so no partial fold set is returned. -/
theorem claim_C7_amended (p : PipelineDateParams) (d : DateTime)
    (hs : p.start_date = .pyDatetime d)
    (hu : parseRdKeyword p.period = none) (hf : 1 ≤ p.folds) :
    calculate_date_folds p =
      .error (.typeError ("unexpected keyword argument " ++ p.period)) := by
  unfold calculate_date_folds
  rw [hs]
  exact foldsUpTo_error hu d _ (by omega)

/-- Witness for the amended C7 at the period string `fortnights`, which no
`relativedelta` keyword matches. -/
theorem claim_C7_amended_witness :
    calculate_date_folds
      ⟨.pyDatetime ⟨2022, 1, 1, 8, 0, 0, 0⟩, "fortnights", 10⟩ =
      .error (.typeError "unexpected keyword argument fortnights") :=
  claim_C7_amended ⟨.pyDatetime ⟨2022, 1, 1, 8, 0, 0, 0⟩, "fortnights", 10⟩
    ⟨2022, 1, 1, 8, 0, 0, 0⟩ rfl (by decide) (by decide)

/-- C8: with a datetime start and `folds ≤ 0`, `calculate_date_folds`
returns an empty fold set without raising (for any period string, since
`range(0, folds)` is empty and the loop body never runs). -/
theorem claim_C8 (p : PipelineDateParams) (d : DateTime)
    (hs : p.start_date = .pyDatetime d) (hf : p.folds ≤ 0) :
    calculate_date_folds p = .ok [] := by
  unfold calculate_date_folds
  rw [hs]
  have h0 : p.folds.toNat = 0 := by omega
  rw [h0]
  rfl

/-- Witness for C8 at `folds = -3`. -/
theorem claim_C8_witness :
    calculate_date_folds
      ⟨.pyDatetime ⟨2022, 1, 1, 8, 0, 0, 0⟩, "hours", -3⟩ = .ok [] :=
  claim_C8 ⟨.pyDatetime ⟨2022, 1, 1, 8, 0, 0, 0⟩, "hours", -3⟩
    ⟨2022, 1, 1, 8, 0, 0, 0⟩ rfl (by decide)

/-- C9: `calculate_date_folds` is a pure, deterministic function of its
parameter tuple — it is a static method whose embedding takes no state, so
two calls with identical parameters return identical fold sets and nothing
else is read or written. -/
theorem claim_C9 (p q : PipelineDateParams) (h : p = q) :
    calculate_date_folds p = calculate_date_folds q := by
  rw [h]

/-- Witness for C9 at the test scenario. -/
theorem claim_C9_witness :
    calculate_date_folds ⟨.pyDatetime ⟨2022, 1, 1, 8, 0, 0, 0⟩, "hours", 10⟩
      =
    calculate_date_folds
      ⟨.pyDatetime ⟨2022, 1, 1, 8, 0, 0, 0⟩, "hours", 10⟩ :=
  claim_C9 ⟨.pyDatetime ⟨2022, 1, 1, 8, 0, 0, 0⟩, "hours", 10⟩
    ⟨.pyDatetime ⟨2022, 1, 1, 8, 0, 0, 0⟩, "hours", 10⟩ rfl

/-- C10: a start value that is an instance of a proper subclass of
`datetime.datetime` (such as `pandas.Timestamp`), though a concrete
timestamp, fails the exact-type assertion `type(start) == datetime.datetime`
with the same assertion error as non-timestamp inputs. -/
theorem claim_C10 (p : PipelineDateParams) (d : DateTime)
    (hs : p.start_date = .pandasTimestamp d) :
    calculate_date_folds p = .error .assertionError ∧
    typeIsExactlyDatetime p.start_date = false := by
  constructor
  · unfold calculate_date_folds
    rw [hs]
  · rw [hs]
    rfl

/-- Witness for C10 at a subclass timestamp carrying the test scenario's
calendar fields. -/
theorem claim_C10_witness :
    calculate_date_folds
      ⟨.pandasTimestamp ⟨2022, 1, 1, 8, 0, 0, 0⟩, "hours", 10⟩ =
        .error .assertionError ∧
    typeIsExactlyDatetime (.pandasTimestamp ⟨2022, 1, 1, 8, 0, 0, 0⟩) =
      false :=
  claim_C10 ⟨.pandasTimestamp ⟨2022, 1, 1, 8, 0, 0, 0⟩, "hours", 10⟩
    ⟨2022, 1, 1, 8, 0, 0, 0⟩ rfl

end CabPrice
